import Mathlib

/-!
Verification development for the editing core of a rich-text editor:
the `cut` recovery protocol (`editOnCut.js`) and the block rendering /
re-render decision logic (`DraftEditorBlock.react.js`).

The two source files under verification are embedded directly.  Their
collaborators (`SelectionState`, `ContentState`, `EditorState`,
`DraftModifier.removeRange`, `getFragmentFromSelection`) are part of the
same repository but their sources are not available here; they are
modelled from the specification (§3, §4.2) and marked as such.
-/

/-- Modelled from the spec: SelectionState (§3) — anchor/focus pair with a
focus flag.  `isBackward` realizes the document-position ordering of
start/end ("start/end are anchor/focus ordered by document position"):
it is true exactly when the focus precedes the anchor. -/
structure SelectionState where
  anchorKey : String
  anchorOffset : Nat
  focusKey : String
  focusOffset : Nat
  isBackward : Bool
  hasFocus : Bool
deriving Repr, DecidableEq

/-- Modelled from the spec: `isCollapsed` is derived as
`anchorKey == focusKey && anchorOffset == focusOffset` (§3). -/
def SelectionState.isCollapsed (s : SelectionState) : Bool :=
  s.anchorKey == s.focusKey && s.anchorOffset == s.focusOffset

def SelectionState.getHasFocus (s : SelectionState) : Bool := s.hasFocus

def SelectionState.getAnchorKey (s : SelectionState) : String := s.anchorKey

def SelectionState.getFocusKey (s : SelectionState) : String := s.focusKey

def SelectionState.getStartKey (s : SelectionState) : String :=
  if s.isBackward then s.focusKey else s.anchorKey

def SelectionState.getStartOffset (s : SelectionState) : Nat :=
  if s.isBackward then s.focusOffset else s.anchorOffset

def SelectionState.getEndKey (s : SelectionState) : String :=
  if s.isBackward then s.anchorKey else s.focusKey

def SelectionState.getEndOffset (s : SelectionState) : Nat :=
  if s.isBackward then s.anchorOffset else s.focusOffset

/-- Modelled from the spec: Block (§3) — key, text and block type.
Inline-style and entity runs are not consulted by the code under
verification and are omitted. -/
structure ContentBlock where
  key : String
  text : String
  type : String
deriving Repr, DecidableEq

def ContentBlock.getKey (b : ContentBlock) : String := b.key

def ContentBlock.getText (b : ContentBlock) : String := b.text

def ContentBlock.getType (b : ContentBlock) : String := b.type

/-- Modelled from the spec: ContentModel (§3) — ordered mapping from block
key to Block (represented as an ordered list of blocks with distinct
keys) plus the derived `selectionAfter` attached by the last mutation. -/
structure ContentState where
  blocks : List ContentBlock
  selectionAfter : SelectionState
deriving Repr, DecidableEq

def ContentState.getSelectionAfter (c : ContentState) : SelectionState :=
  c.selectionAfter

def ContentState.getBlockForKey (c : ContentState) (k : String) : Option ContentBlock :=
  c.blocks.find? (fun b => b.key == k)

def ContentState.indexOfKey (c : ContentState) (k : String) : Option Nat :=
  c.blocks.findIdx? (fun b => b.key == k)

/-- Modelled from the spec: the block immediately preceding the block with
key `k` in document order, if any. -/
def ContentState.getBlockBefore (c : ContentState) (k : String) : Option ContentBlock :=
  match c.indexOfKey k with
  | some (i + 1) => c.blocks.get? i
  | _ => none

/-- Modelled from the spec: EditorState (§3) — current content, current
selection, undo/redo stacks and the force-selection flag. -/
structure EditorState where
  content : ContentState
  selection : SelectionState
  undoStack : List ContentState
  redoStack : List ContentState
  forceSelectionFlag : Bool
deriving Repr, DecidableEq

def EditorState.getCurrentContent (es : EditorState) : ContentState := es.content

def EditorState.getSelection (es : EditorState) : SelectionState := es.selection

/-- Modelled from the spec: `forceSelection(editorState, selection)`
"replaces only the selection and sets the force flag" (§4.2). -/
def EditorState.forceSelection (es : EditorState) (sel : SelectionState) : EditorState :=
  { es with selection := sel, forceSelectionFlag := true }

/-- Modelled from the spec: `push(editorState, newContent, editType)`
"appends the previous content to the undo stack, clears the redo stack,
and sets content = newContent, selection = newContent.selectionAfter"
(§4.2).  The only edit type used by the code under verification,
`remove-range`, is undoable, so the previous content is always appended. -/
def EditorState.push (es : EditorState) (newContent : ContentState)
    (_editType : String) : EditorState :=
  { es with
    content := newContent,
    selection := newContent.selectionAfter,
    undoStack := es.content :: es.undoStack,
    redoStack := [] }

/-- Modelled from the spec: `removeRange(content, selection, direction)`
(§4.2) — returns a new ContentModel with the selected text spliced out
and a derived `selectionAfter` that is always collapsed at the start of
the removed range.  The direction argument only matters for collapsed
selections ("here always called with a non-collapsed selection") and is
ignored.  Inputs are assumed well-formed (§7); on a dangling key the
content is returned unchanged. -/
def removeRange (content : ContentState) (selection : SelectionState)
    (_direction : String) : ContentState :=
  let sKey := selection.getStartKey
  let sOff := selection.getStartOffset
  let eKey := selection.getEndKey
  let eOff := selection.getEndOffset
  match content.indexOfKey sKey, content.indexOfKey eKey with
  | some si, some ei =>
    match content.blocks.get? si, content.blocks.get? ei with
    | some sb, some eb =>
      let merged : ContentBlock :=
        { key := sb.key, text := sb.text.take sOff ++ eb.text.drop eOff, type := sb.type }
      { blocks := content.blocks.take si ++ [merged] ++ content.blocks.drop (ei + 1),
        selectionAfter :=
          { anchorKey := sKey, anchorOffset := sOff,
            focusKey := sKey, focusOffset := sOff,
            isBackward := false, hasFocus := selection.hasFocus } }
    | _, _ => content
  | _, _ => content

/-- Modelled from the spec: `extractFragment(content, selection)` (§4.2) —
the sub-sequence of blocks spanned by the selection, with the first and
last block texts sliced to the selected portion. -/
def getFragmentFromSelection (es : EditorState) : List ContentBlock :=
  let sel := es.selection
  let c := es.content
  match c.indexOfKey sel.getStartKey, c.indexOfKey sel.getEndKey with
  | some si, some ei =>
    let slice := (c.blocks.drop si).take (ei + 1 - si)
    slice.mapIdx (fun i b =>
      let t := b.text
      let t := if si + i == ei then t.take sel.getEndOffset else t
      let t := if i == 0 then t.drop sel.getStartOffset else t
      { b with text := t })
  | _, _ => []

/-- Observable actions performed by the cut handler on its host
(the event, the host clipboard/DOM collaborators, and the component). -/
inductive CAction where
  | preventDefault
  | captureScroll (x y : Int)
  | extractFragment (fragment : List ContentBlock)
  | setClipboard (fragment : List ContentBlock)
  | setRenderGuard
  | setMode (mode : String)
  | restoreEditorDOM (x y : Int)
  | removeRenderGuard
  | exitCurrentMode
  | update (state : EditorState)
deriving Repr, DecidableEq

/-- The `selectCanNotUndo` condition computed in `removeFragment`
(editOnCut.js lines 71-79): a block exists before the selection's start
block, the selection starts and ends in the same block, the start and
end offsets differ, and that block's type is `atomic`. -/
def selectCanNotUndoFlag (editorState : EditorState) : Bool :=
  let contentState := editorState.getCurrentContent
  let selectionState := editorState.getSelection
  let startKey := selectionState.getStartKey
  (contentState.getBlockBefore startKey).isSome
    && (startKey == selectionState.getEndKey)
    && (selectionState.getStartOffset != selectionState.getEndOffset)
    && (match contentState.getBlockForKey startKey with
        | some b => b.getType == "atomic"
        | none => false)

/-- `removeFragment` (editOnCut.js lines 67-89): remove the selected range
from the content; when `selectCanNotUndo` holds, first force the
selection to the post-removal position, then push the new content with
edit type `remove-range`. -/
def removeFragment (editorState : EditorState) : EditorState :=
  let contentState := editorState.getCurrentContent
  let newContent := removeRange contentState editorState.getSelection "forward"
  let editorState :=
    if selectCanNotUndoFlag editorState then
      EditorState.forceSelection editorState newContent.getSelectionAfter
    else editorState
  EditorState.push editorState newContent "remove-range"

/-- The closure scheduled with `setTimeout` in `editOnCut` (lines 54-64):
it captures the editor state and the scroll offset read at cut time. -/
structure DeferredCut where
  editorState : EditorState
  x : Int
  y : Int
deriving Repr, DecidableEq

/-- Running the deferred continuation (editOnCut.js lines 54-64).
`propsAtFire` is `this.props.editorState` at the moment the timeout
fires; the source closure reads only the `editorState` const captured
when the handler ran, so the parameter is never consulted. -/
def runDeferredCut (c : DeferredCut) (_propsAtFire : EditorState) : List CAction :=
  let afterRemove := removeFragment c.editorState
  let selectionState := afterRemove.getCurrentContent.getSelectionAfter
  let afterSel := EditorState.forceSelection afterRemove selectionState
  [CAction.restoreEditorDOM c.x c.y,
   CAction.removeRenderGuard,
   CAction.exitCurrentMode,
   CAction.update afterSel]

/-- `editOnCut` (editOnCut.js lines 31-65).  `scrollX`/`scrollY` are the
scroll position of the nearest scrollable ancestor supplied by the host
(`Style.getScrollParent` / `getScrollPosition`).  Returns the
synchronous actions together with the scheduled deferred continuation,
if any. -/
def editOnCut (editorState : EditorState) (scrollX scrollY : Int) :
    List CAction × Option DeferredCut :=
  let selection := editorState.getSelection
  if selection.isCollapsed then
    ([CAction.preventDefault], none)
  else
    let fragment := getFragmentFromSelection editorState
    ([CAction.captureScroll scrollX scrollY,
      CAction.extractFragment fragment,
      CAction.setClipboard fragment,
      CAction.setRenderGuard,
      CAction.setMode "cut"],
     some { editorState := editorState, x := scrollX, y := scrollY })

/-- A decorator match leaf in the render tree: a `{start, end}` offset
range (`end` is spelled `endOffset`). -/
structure Leaf where
  start : Nat
  endOffset : Nat
deriving Repr, DecidableEq

/-- A leaf set in the render tree: its leaves and an optional decorator
key. -/
structure LeafSet where
  leaves : List Leaf
  decoratorKey : Option String
deriving Repr, DecidableEq

/-- Modelled from the spec: the decorator collaborator (§6), reduced to
the component lookup `decoratorLookup(key) -> componentDescriptor?`;
component descriptors are opaque and represented by numbers. -/
structure Decorator where
  componentForKey : String → Option Nat

/-- The props of `DraftEditorBlock` (DraftEditorBlock.react.js lines
40-55) restricted to the fields its logic reads.  `blockId` and `treeId`
stand for the reference identities compared with `!==`; `blockKey` and
`blockText` are the block's key and text; `tree` is the leaf-set tree
contents. -/
structure Props where
  blockId : Nat
  blockKey : String
  blockText : String
  treeId : Nat
  tree : List LeafSet
  textAlign : String
  readOnly : Bool
  direction : String
  selection : SelectionState
  forceSelection : Bool
  decorator : Option Decorator

/-- `isBlockOnSelectionEdge` (DraftEditorBlock.react.js lines 235-243). -/
def isBlockOnSelectionEdge (selection : SelectionState) (key : String) : Bool :=
  selection.getAnchorKey == key || selection.getFocusKey == key

/-- The editing predicate computed identically in `shouldComponentUpdate`
(lines 66-67) and in `_renderChildren` (line 157):
`selection.getHasFocus() && selection.isCollapsed() &&
selection.getStartKey() === block.getKey()`. -/
def blockIsEditing (p : Props) : Bool :=
  p.selection.getHasFocus && p.selection.isCollapsed
    && (p.selection.getStartKey == p.blockKey)

/-- `shouldComponentUpdate` (DraftEditorBlock.react.js lines 64-85). -/
def shouldComponentUpdate (cur next : Props) : Bool :=
  let updateTailCR := blockIsEditing cur != blockIsEditing next
  (cur.textAlign != next.textAlign)
    || (cur.readOnly != next.readOnly)
    || (cur.blockId != next.blockId)
    || (cur.treeId != next.treeId)
    || updateTailCR
    || (cur.direction != next.direction)
    || (isBlockOnSelectionEdge next.selection next.blockKey && next.forceSelection)

/-- A rendered `DraftEditorLeaf`, restricted to the props the
verification is about (lines 149-168 of the source). -/
structure RenderedLeaf where
  start : Nat
  isEditing : Bool
  isEmpty : Bool
  readOnly : Bool
  text : String
deriving Repr, DecidableEq

/-- The rendered form of one leaf set: either the bare leaves, or the
leaves wrapped in the decorator component resolved for the key. -/
inductive Rendered where
  | ungrouped (leaves : List RenderedLeaf)
  | decorated (decoratorKey : String) (component : Nat) (leaves : List RenderedLeaf)
deriving Repr, DecidableEq

/-- Rendering of one `DraftEditorLeaf` (DraftEditorBlock.react.js lines
145-168): in particular `isEditing` (line 157) and
`isEmpty = text.length == 0 && !this.props.readOnly` (line 158). -/
def renderLeaf (p : Props) (leaf : Leaf) : RenderedLeaf :=
  { start := leaf.start,
    isEditing := blockIsEditing p,
    isEmpty := (p.blockText.length == 0) && !p.readOnly,
    readOnly := p.readOnly,
    text := (p.blockText.drop leaf.start).take (leaf.endOffset - leaf.start) }

/-- Rendering of one leaf set (DraftEditorBlock.react.js lines 142-212):
render the leaves, then wrap them in the decorator component unless the
decorator key is absent, no decorator is configured, or the lookup
returns no component. -/
def renderLeafSet (p : Props) (leafSet : LeafSet) : Rendered :=
  let leaves := leafSet.leaves.map (renderLeaf p)
  match leafSet.decoratorKey with
  | none => Rendered.ungrouped leaves
  | some decoratorKey =>
    match p.decorator with
    | none => Rendered.ungrouped leaves
    | some d =>
      match d.componentForKey decoratorKey with
      | none => Rendered.ungrouped leaves
      | some component => Rendered.decorated decoratorKey component leaves

/-- `_renderChildren` (DraftEditorBlock.react.js lines 135-214),
restricted to the leaf/decorator structure of its output. -/
def renderChildren (p : Props) : List Rendered :=
  p.tree.map (renderLeafSet p)

/-- The leaves carried by a rendered leaf set, with or without a
decorator wrapper. -/
def leavesOf : Rendered → List RenderedLeaf
  | Rendered.ungrouped leaves => leaves
  | Rendered.decorated _ _ leaves => leaves

/-- `SCROLL_BUFFER` (DraftEditorBlock.react.js line 38). -/
def SCROLL_BUFFER : Int := 10

/-- The DOM measurements `componentDidMount` reads from the host:
whether the scroll parent is the window, the parent's scroll position
(`getScrollPosition` and `Scroll.getTop` both read the same scroll top),
the block node's viewport position and height, the viewport height, and
the node/parent offset geometry used in the element branch. -/
structure MountHost where
  hasWindowScrollParent : Bool
  scrollX : Int
  scrollY : Int
  nodeY : Int
  nodeHeight : Int
  viewportHeight : Int
  nodeOffsetTop : Int
  nodeOffsetHeight : Int
  parentOffsetHeight : Int
deriving Repr, DecidableEq

/-- A scroll mutation issued by `componentDidMount`: either
`window.scrollTo(x, y)` or `Scroll.setTop(parent, t)`. -/
inductive ScrollEffect where
  | windowScrollTo (x y : Int)
  | setTop (t : Int)
deriving Repr, DecidableEq

/-- The vertical position the effect scrolls to. -/
def effectNewTop : ScrollEffect → Int
  | ScrollEffect.windowScrollTo _ y => y
  | ScrollEffect.setTop t => t

/-- The overshoot (`scrollDelta`) computed by `componentDidMount` in the
branch selected by the scroll parent (lines 111-125). -/
def mountOvershoot (h : MountHost) : Int :=
  if h.hasWindowScrollParent then
    (h.nodeY + h.nodeHeight) - h.viewportHeight
  else
    (h.nodeOffsetHeight + h.nodeOffsetTop) - (h.parentOffsetHeight + h.scrollY)

/-- `componentDidMount` (DraftEditorBlock.react.js lines 99-133): when the
selection has focus and ends on this block, align the block bottom with
the scroll parent's visible bottom plus `SCROLL_BUFFER`, scrolling only
if the block bottom overshoots.  Returns the scroll mutation issued, if
any. -/
def componentDidMount (selection : SelectionState) (blockKey : String)
    (h : MountHost) : Option ScrollEffect :=
  if !selection.getHasFocus || selection.getEndKey != blockKey then
    none
  else if h.hasWindowScrollParent then
    let nodeBottom := h.nodeY + h.nodeHeight
    let scrollDelta := nodeBottom - h.viewportHeight
    if scrollDelta > 0 then
      some (ScrollEffect.windowScrollTo h.scrollX (h.scrollY + scrollDelta + SCROLL_BUFFER))
    else none
  else
    let blockBottom := h.nodeOffsetHeight + h.nodeOffsetTop
    let scrollBottom := h.parentOffsetHeight + h.scrollY
    let scrollDelta := blockBottom - scrollBottom
    if scrollDelta > 0 then
      some (ScrollEffect.setTop (h.scrollY + scrollDelta + SCROLL_BUFFER))
    else none

/-- Fixture: a one-block document with a collapsed selection. -/
def esCutCollapsed : EditorState :=
  { content :=
      { blocks := [{ key := "b", text := "abc", type := "unstyled" }],
        selectionAfter :=
          { anchorKey := "b", anchorOffset := 0, focusKey := "b", focusOffset := 0,
            isBackward := false, hasFocus := false } },
    selection :=
      { anchorKey := "b", anchorOffset := 2, focusKey := "b", focusOffset := 2,
        isBackward := false, hasFocus := true },
    undoStack := [], redoStack := [], forceSelectionFlag := false }

/-- Fixture: a one-block document `"abc"` with the range 1-3 selected. -/
def esCutRange : EditorState :=
  { content :=
      { blocks := [{ key := "b", text := "abc", type := "unstyled" }],
        selectionAfter :=
          { anchorKey := "b", anchorOffset := 0, focusKey := "b", focusOffset := 0,
            isBackward := false, hasFocus := false } },
    selection :=
      { anchorKey := "b", anchorOffset := 1, focusKey := "b", focusOffset := 3,
        isBackward := false, hasFocus := true },
    undoStack := [], redoStack := [], forceSelectionFlag := false }

/-- Fixture: a two-block document `"pq"`, `"rs"` with the range from
offset 1 of the first block to offset 1 of the second selected. -/
def esCutTwoBlocks : EditorState :=
  { content :=
      { blocks := [{ key := "b1", text := "pq", type := "unstyled" },
                   { key := "b2", text := "rs", type := "unstyled" }],
        selectionAfter :=
          { anchorKey := "b1", anchorOffset := 0, focusKey := "b1", focusOffset := 0,
            isBackward := false, hasFocus := false } },
    selection :=
      { anchorKey := "b1", anchorOffset := 1, focusKey := "b2", focusOffset := 1,
        isBackward := false, hasFocus := true },
    undoStack := [], redoStack := [], forceSelectionFlag := false }

/-- Fixture: a document whose first (and only) block is atomic, with a
non-collapsed selection inside it. -/
def esAtomicFirst : EditorState :=
  { content :=
      { blocks := [{ key := "b1", text := "xy", type := "atomic" }],
        selectionAfter :=
          { anchorKey := "b1", anchorOffset := 0, focusKey := "b1", focusOffset := 0,
            isBackward := false, hasFocus := false } },
    selection :=
      { anchorKey := "b1", anchorOffset := 0, focusKey := "b1", focusOffset := 1,
        isBackward := false, hasFocus := true },
    undoStack := [], redoStack := [], forceSelectionFlag := false }

/-- Fixture: a document whose second block is atomic, with a non-collapsed
selection inside that block. -/
def esAtomicSecond : EditorState :=
  { content :=
      { blocks := [{ key := "a", text := "p", type := "unstyled" },
                   { key := "b", text := "xy", type := "atomic" }],
        selectionAfter :=
          { anchorKey := "a", anchorOffset := 0, focusKey := "a", focusOffset := 0,
            isBackward := false, hasFocus := false } },
    selection :=
      { anchorKey := "b", anchorOffset := 0, focusKey := "b", focusOffset := 1,
        isBackward := false, hasFocus := true },
    undoStack := [], redoStack := [], forceSelectionFlag := false }

/-- Fixture: block props with no decorator configured. -/
def propsNoDecorator : Props :=
  { blockId := 0, blockKey := "b", blockText := "hi", treeId := 0,
    tree := [{ leaves := [{ start := 0, endOffset := 2 }], decoratorKey := none }],
    textAlign := "left", readOnly := false, direction := "LTR",
    selection :=
      { anchorKey := "b", anchorOffset := 0, focusKey := "b", focusOffset := 0,
        isBackward := false, hasFocus := false },
    forceSelection := false, decorator := none }

/-- Fixture: block props whose block carries the collapsed, focused
selection. -/
def propsEditingLeaf : Props :=
  { blockId := 2, blockKey := "e", blockText := "", treeId := 2,
    tree := [{ leaves := [{ start := 0, endOffset := 0 }], decoratorKey := none }],
    textAlign := "left", readOnly := false, direction := "LTR",
    selection :=
      { anchorKey := "e", anchorOffset := 0, focusKey := "e", focusOffset := 0,
        isBackward := false, hasFocus := true },
    forceSelection := false, decorator := none }

/-- Fixture: read-only block props with empty block text. -/
def propsReadOnlyEmpty : Props :=
  { blockId := 3, blockKey := "c", blockText := "", treeId := 3,
    tree := [{ leaves := [{ start := 0, endOffset := 0 }], decoratorKey := none }],
    textAlign := "left", readOnly := true, direction := "LTR",
    selection :=
      { anchorKey := "c", anchorOffset := 0, focusKey := "c", focusOffset := 0,
        isBackward := false, hasFocus := false },
    forceSelection := false, decorator := none }

/-- Fixture: editable block props with empty block text. -/
def propsEmptyEditable : Props :=
  { blockId := 4, blockKey := "d", blockText := "", treeId := 4,
    tree := [{ leaves := [{ start := 0, endOffset := 0 }], decoratorKey := none }],
    textAlign := "left", readOnly := false, direction := "LTR",
    selection :=
      { anchorKey := "d", anchorOffset := 0, focusKey := "d", focusOffset := 0,
        isBackward := false, hasFocus := false },
    forceSelection := false, decorator := none }

/-- Fixture: a focused selection ending on block `"k"`. -/
def selMountW : SelectionState :=
  { anchorKey := "k", anchorOffset := 0, focusKey := "k", focusOffset := 0,
    isBackward := false, hasFocus := true }

/-- Fixture: window scroll parent, block bottom 10 units below the
viewport bottom. -/
def hostMountW : MountHost :=
  { hasWindowScrollParent := true, scrollX := 0, scrollY := 5,
    nodeY := 100, nodeHeight := 20, viewportHeight := 110,
    nodeOffsetTop := 0, nodeOffsetHeight := 0, parentOffsetHeight := 0 }

/-- Fixture: the leaf rendered from `propsEditingLeaf`. -/
def leafEditW : RenderedLeaf :=
  { start := 0, isEditing := true, isEmpty := true, readOnly := false, text := "" }

/-- Fixture: the leaf rendered from `propsReadOnlyEmpty`. -/
def leafROEmpty : RenderedLeaf :=
  { start := 0, isEditing := false, isEmpty := false, readOnly := true, text := "" }

/-- Fixture: the leaf rendered from `propsEmptyEditable`. -/
def leafEmptyEditable : RenderedLeaf :=
  { start := 0, isEditing := false, isEmpty := true, readOnly := false, text := "" }

/-- Claim C1: for every editor state whose selection is collapsed, the cut
handler suppresses the native action (preventDefault) and returns with
no other observable action and no deferred continuation scheduled. -/
theorem cut_collapsed_noop (es : EditorState) (x y : Int)
    (h : es.getSelection.isCollapsed = true) :
    editOnCut es x y = ([CAction.preventDefault], none) := by
  simp [editOnCut, h]

theorem cut_collapsed_noop_witness :
    esCutCollapsed.getSelection.isCollapsed = true ∧
    editOnCut esCutCollapsed 0 0 = ([CAction.preventDefault], none) :=
  ⟨by decide, cut_collapsed_noop esCutCollapsed 0 0 (by decide)⟩

/-- Claim C5: for every editor state with a non-collapsed selection, the
cut handler performs, before yielding to the native cut, exactly the
sequence: capture the scroll offset, extract the clipboard fragment from
the current selection, hand the fragment to the host clipboard, set the
render guard, set mode to `cut` — and schedules the deferred
continuation capturing the state and scroll offset. -/
theorem cut_noncollapsed_sync_actions (es : EditorState) (x y : Int)
    (h : es.getSelection.isCollapsed = false) :
    editOnCut es x y =
      ([CAction.captureScroll x y,
        CAction.extractFragment (getFragmentFromSelection es),
        CAction.setClipboard (getFragmentFromSelection es),
        CAction.setRenderGuard,
        CAction.setMode "cut"],
       some { editorState := es, x := x, y := y }) := by
  simp [editOnCut, h]

theorem cut_noncollapsed_sync_actions_witness :
    esCutRange.getSelection.isCollapsed = false ∧
    editOnCut esCutRange 7 8 =
      ([CAction.captureScroll 7 8,
        CAction.extractFragment (getFragmentFromSelection esCutRange),
        CAction.setClipboard (getFragmentFromSelection esCutRange),
        CAction.setRenderGuard,
        CAction.setMode "cut"],
       some { editorState := esCutRange, x := 7, y := 8 }) :=
  ⟨by decide, cut_noncollapsed_sync_actions esCutRange 7 8 (by decide)⟩

/-- Claim C2: whenever the cut handler schedules a deferred continuation,
running it performs, in order: restore the host surface with the scroll
offset captured before the native cut, lift the render guard, clear the
mode, and commit `forceSelection(afterRemove,
afterRemove.content.selectionAfter)` where `afterRemove` is the pre-cut
state pushed with the result of `removeRange(content, selection,
forward)` under edit type `remove-range`. -/
theorem cut_deferred_recovery (es propsAtFire : EditorState) (x y : Int)
    (d : DeferredCut) (h : (editOnCut es x y).2 = some d) :
    runDeferredCut d propsAtFire =
      [CAction.restoreEditorDOM x y,
       CAction.removeRenderGuard,
       CAction.exitCurrentMode,
       CAction.update
         (EditorState.forceSelection
           (EditorState.push es
             (removeRange es.getCurrentContent es.getSelection "forward")
             "remove-range")
           ((removeRange es.getCurrentContent es.getSelection "forward").getSelectionAfter))] := by
  by_cases hc : es.getSelection.isCollapsed
  · simp [editOnCut, hc] at h
  · simp [editOnCut, hc] at h
    subst h
    by_cases hf : selectCanNotUndoFlag es <;>
      simp [runDeferredCut, removeFragment, hf, EditorState.push,
        EditorState.forceSelection, EditorState.getCurrentContent,
        ContentState.getSelectionAfter, EditorState.getSelection]

theorem cut_deferred_recovery_witness :
    runDeferredCut { editorState := esCutTwoBlocks, x := 3, y := 4 } esCutCollapsed =
      [CAction.restoreEditorDOM 3 4,
       CAction.removeRenderGuard,
       CAction.exitCurrentMode,
       CAction.update
         (EditorState.forceSelection
           (EditorState.push esCutTwoBlocks
             (removeRange esCutTwoBlocks.getCurrentContent esCutTwoBlocks.getSelection "forward")
             "remove-range")
           ((removeRange esCutTwoBlocks.getCurrentContent esCutTwoBlocks.getSelection "forward").getSelectionAfter))] :=
  cut_deferred_recovery esCutTwoBlocks esCutCollapsed 3 4
    { editorState := esCutTwoBlocks, x := 3, y := 4 } (by decide)

/-- Claim C9: the deferred cut-recovery continuation is a function of the
snapshot captured when the cut event fired only: running it with any two
values of the editor's current props-state at fire time yields the same
actions, and the committed state is determined by the captured
snapshot. -/
theorem cut_deferred_snapshot_determined (d : DeferredCut) (p q : EditorState) :
    runDeferredCut d p = runDeferredCut d q ∧
    runDeferredCut d p =
      [CAction.restoreEditorDOM d.x d.y,
       CAction.removeRenderGuard,
       CAction.exitCurrentMode,
       CAction.update
         (EditorState.forceSelection (removeFragment d.editorState)
           ((removeFragment d.editorState).getCurrentContent.getSelectionAfter))] :=
  ⟨rfl, rfl⟩

/-- Claim C3 counterexample: a non-collapsed selection inside a single
atomic block with differing offsets for which `selectCanNotUndo` is NOT
set and the selection is NOT forced — because the atomic block is the
first block of the document, so `getBlockBefore` returns nothing, a
condition the claim omits. -/
theorem atomic_first_block_not_isolated_cex :
    esAtomicFirst.getSelection.getStartKey = esAtomicFirst.getSelection.getEndKey ∧
    (esAtomicFirst.getCurrentContent.getBlockForKey
        esAtomicFirst.getSelection.getStartKey).map ContentBlock.getType = some "atomic" ∧
    esAtomicFirst.getSelection.getStartOffset ≠ esAtomicFirst.getSelection.getEndOffset ∧
    selectCanNotUndoFlag esAtomicFirst = false ∧
    (removeFragment esAtomicFirst).forceSelectionFlag = false := by
  decide

/-- Claim C3 (amended): for every editor state whose selection starts and
ends in one and the same block, if that block's type is `atomic`, the
start offset differs from the end offset, AND a block precedes it in
document order, then the cut-removal operation sets `selectCanNotUndo`
and explicitly forces the post-removal selection before pushing. -/
theorem atomic_single_block_cut_undo_isolation (es : EditorState)
    (hsame : es.getSelection.getStartKey = es.getSelection.getEndKey)
    (hatomic : (es.getCurrentContent.getBlockForKey
        es.getSelection.getStartKey).map ContentBlock.getType = some "atomic")
    (hoff : es.getSelection.getStartOffset ≠ es.getSelection.getEndOffset)
    (hbefore : (es.getCurrentContent.getBlockBefore
        es.getSelection.getStartKey).isSome = true) :
    selectCanNotUndoFlag es = true ∧
    removeFragment es =
      EditorState.push
        (EditorState.forceSelection es
          ((removeRange es.getCurrentContent es.getSelection "forward").getSelectionAfter))
        (removeRange es.getCurrentContent es.getSelection "forward")
        "remove-range" := by
  have hflag : selectCanNotUndoFlag es = true := by
    rcases Option.map_eq_some'.mp hatomic with ⟨b, hb, hbt⟩
    simp [selectCanNotUndoFlag, ← hsame, hbefore, hoff, hb, hbt]
  exact ⟨hflag, by simp [removeFragment, hflag]⟩

theorem atomic_single_block_cut_undo_isolation_witness :
    selectCanNotUndoFlag esAtomicSecond = true ∧
    removeFragment esAtomicSecond =
      EditorState.push
        (EditorState.forceSelection esAtomicSecond
          ((removeRange esAtomicSecond.getCurrentContent esAtomicSecond.getSelection "forward").getSelectionAfter))
        (removeRange esAtomicSecond.getCurrentContent esAtomicSecond.getSelection "forward")
        "remove-range" :=
  atomic_single_block_cut_undo_isolation esAtomicSecond
    (by decide) (by decide) (by decide) (by decide)

/-- Claim C4: `shouldComponentUpdate(prev, next)` is true if and only if
the block identity changed, the decorator-tree identity changed,
text-align changed, read-only changed, direction changed, the editing
predicate flipped between prev and next, or the next block's key equals
the next selection's anchor or focus key while the next force-selection
flag is set. -/
theorem shouldComponentUpdate_iff (cur next : Props) :
    shouldComponentUpdate cur next = true ↔
      (cur.blockId ≠ next.blockId ∨
       cur.treeId ≠ next.treeId ∨
       cur.textAlign ≠ next.textAlign ∨
       cur.readOnly ≠ next.readOnly ∨
       cur.direction ≠ next.direction ∨
       blockIsEditing cur ≠ blockIsEditing next ∨
       ((next.selection.getAnchorKey = next.blockKey ∨
         next.selection.getFocusKey = next.blockKey) ∧
        next.forceSelection = true)) := by
  simp only [shouldComponentUpdate, isBlockOnSelectionEdge, Bool.or_eq_true,
    Bool.and_eq_true, bne_iff_ne, beq_iff_eq, ne_eq]
  tauto

/-- Claim C6: if a leaf set's decorator key is absent, or no decorator is
configured, or the decorator lookup returns no component for the key,
the leaves of that set are rendered ungrouped, identically in all three
cases. -/
theorem renderLeafSet_fallback_ungrouped (p : Props) (ls : LeafSet)
    (h : ls.decoratorKey = none ∨ p.decorator = none ∨
         ∃ dk d, ls.decoratorKey = some dk ∧ p.decorator = some d ∧
           d.componentForKey dk = none) :
    renderLeafSet p ls = Rendered.ungrouped (ls.leaves.map (renderLeaf p)) := by
  rcases h with h | h | ⟨dk, d, h1, h2, h3⟩
  · simp [renderLeafSet, h]
  · cases hk : ls.decoratorKey <;> simp [renderLeafSet, hk, h]
  · simp [renderLeafSet, h1, h2, h3]

theorem renderLeafSet_fallback_ungrouped_witness :
    renderLeafSet propsNoDecorator
        { leaves := [{ start := 0, endOffset := 2 }], decoratorKey := none } =
      Rendered.ungrouped
        ((([{ start := 0, endOffset := 2 }] : List Leaf)).map (renderLeaf propsNoDecorator)) :=
  renderLeafSet_fallback_ungrouped propsNoDecorator
    { leaves := [{ start := 0, endOffset := 2 }], decoratorKey := none }
    (Or.inl rfl)

/-- The leaves of a rendered leaf set are exactly the renderings of the
leaf set's leaves, with or without a decorator wrapper. -/
theorem leavesOf_renderLeafSet (p : Props) (ls : LeafSet) :
    leavesOf (renderLeafSet p ls) = ls.leaves.map (renderLeaf p) := by
  cases hk : ls.decoratorKey with
  | none => simp [renderLeafSet, hk, leavesOf]
  | some dk =>
    cases hp : p.decorator with
    | none => simp [renderLeafSet, hk, hp, leavesOf]
    | some d =>
      cases hc : d.componentForKey dk <;>
        simp [renderLeafSet, hk, hp, hc, leavesOf]

/-- Claim C7: every leaf rendered by the block receives
`isEditing = selection.hasFocus && selection.isCollapsed &&
selection.startKey == block.key`, recomputed from the selection passed
to the current render. -/
theorem rendered_leaf_isEditing (p : Props) (r : Rendered) (lf : RenderedLeaf)
    (hr : r ∈ renderChildren p) (hlf : lf ∈ leavesOf r) :
    lf.isEditing =
      (p.selection.getHasFocus && p.selection.isCollapsed
        && (p.selection.getStartKey == p.blockKey)) := by
  rcases List.mem_map.mp (by simpa [renderChildren] using hr) with ⟨ls, _, rfl⟩
  rw [leavesOf_renderLeafSet] at hlf
  rcases List.mem_map.mp hlf with ⟨leaf, _, rfl⟩
  rfl

theorem rendered_leaf_isEditing_witness :
    leafEditW.isEditing =
      (propsEditingLeaf.selection.getHasFocus && propsEditingLeaf.selection.isCollapsed
        && (propsEditingLeaf.selection.getStartKey == propsEditingLeaf.blockKey)) :=
  rendered_leaf_isEditing propsEditingLeaf (Rendered.ungrouped [leafEditW]) leafEditW
    (by decide) (by decide)

/-- Claim C8 counterexample: a block with empty text rendered under
read-only props yields a leaf with `isEmpty = false`, so `isEmpty` is
not equivalent to the text length being zero. -/
theorem rendered_leaf_isEmpty_cex :
    propsReadOnlyEmpty.blockText.length = 0 ∧
    renderChildren propsReadOnlyEmpty = [Rendered.ungrouped [leafROEmpty]] ∧
    leafROEmpty.isEmpty = false := by
  decide

/-- Claim C8 (amended): every leaf rendered by the block receives
`isEmpty = (block.text.length == 0 && !readOnly)`: true exactly when the
block's text is empty and the editor is not read-only. -/
theorem rendered_leaf_isEmpty (p : Props) (r : Rendered) (lf : RenderedLeaf)
    (hr : r ∈ renderChildren p) (hlf : lf ∈ leavesOf r) :
    lf.isEmpty = ((p.blockText.length == 0) && !p.readOnly) := by
  rcases List.mem_map.mp (by simpa [renderChildren] using hr) with ⟨ls, _, rfl⟩
  rw [leavesOf_renderLeafSet] at hlf
  rcases List.mem_map.mp hlf with ⟨leaf, _, rfl⟩
  rfl

theorem rendered_leaf_isEmpty_witness :
    leafEmptyEditable.isEmpty =
      ((propsEmptyEditable.blockText.length == 0) && !propsEmptyEditable.readOnly) :=
  rendered_leaf_isEmpty propsEmptyEditable
    (Rendered.ungrouped [leafEmptyEditable]) leafEmptyEditable
    (by decide) (by decide)

/-- Claim C10: on mount the block issues a scroll mutation exactly when
the selection has focus, ends on this block, and the block bottom
overshoots the scroll parent's visible bottom; the mutation scrolls to
the old position plus the overshoot plus the 10-unit buffer — strictly
downward — and preserves the horizontal position when it targets the
window. -/
theorem componentDidMount_scroll (sel : SelectionState) (key : String)
    (h : MountHost) :
    ((componentDidMount sel key h).isSome ↔
       (sel.getHasFocus = true ∧ sel.getEndKey = key ∧ 0 < mountOvershoot h)) ∧
    (∀ eff, componentDidMount sel key h = some eff →
       effectNewTop eff = h.scrollY + mountOvershoot h + SCROLL_BUFFER ∧
       h.scrollY < effectNewTop eff ∧
       ∀ a b, eff = ScrollEffect.windowScrollTo a b → a = h.scrollX) := by
  cases hf : sel.getHasFocus with
  | false =>
    constructor
    · simp [componentDidMount, hf]
    · intro eff heff
      simp [componentDidMount, hf] at heff
  | true =>
    by_cases hk : sel.getEndKey = key
    · cases hw : h.hasWindowScrollParent with
      | true =>
        by_cases hd : (0 : Int) < h.nodeY + h.nodeHeight - h.viewportHeight
        · constructor
          · simp [componentDidMount, mountOvershoot, hf, hk, hw, hd]
          · intro eff heff
            simp [componentDidMount, hf, hk, hw, hd] at heff
            subst heff
            refine ⟨by simp [effectNewTop, mountOvershoot, hw], ?_, ?_⟩
            · simp only [effectNewTop, SCROLL_BUFFER]
              omega
            · intro a b hab
              cases hab
              rfl
        · constructor
          · simp [componentDidMount, mountOvershoot, hf, hk, hw, hd]
          · intro eff heff
            simp [componentDidMount, hf, hk, hw, hd] at heff
      | false =>
        by_cases hd : (0 : Int) <
            h.nodeOffsetHeight + h.nodeOffsetTop - (h.parentOffsetHeight + h.scrollY)
        · constructor
          · simp [componentDidMount, mountOvershoot, hf, hk, hw, hd]
          · intro eff heff
            simp [componentDidMount, hf, hk, hw, hd] at heff
            subst heff
            refine ⟨by simp [effectNewTop, mountOvershoot, hw], ?_, ?_⟩
            · simp only [effectNewTop, SCROLL_BUFFER]
              omega
            · intro a b hab
              simp at hab
        · constructor
          · simp [componentDidMount, mountOvershoot, hf, hk, hw, hd]
          · intro eff heff
            simp [componentDidMount, hf, hk, hw, hd] at heff
    · constructor
      · simp [componentDidMount, hf, hk]
      · intro eff heff
        simp [componentDidMount, hf, hk] at heff

theorem componentDidMount_scroll_witness :
    (componentDidMount selMountW "k" hostMountW).isSome ∧
    effectNewTop (ScrollEffect.windowScrollTo 0 25) =
      hostMountW.scrollY + mountOvershoot hostMountW + SCROLL_BUFFER ∧
    hostMountW.scrollY < effectNewTop (ScrollEffect.windowScrollTo 0 25) ∧
    (0 : Int) = hostMountW.scrollX :=
  ⟨(componentDidMount_scroll selMountW "k" hostMountW).1.mpr
      ⟨by decide, by decide, by decide⟩,
   ((componentDidMount_scroll selMountW "k" hostMountW).2
      (ScrollEffect.windowScrollTo 0 25) (by decide)).1,
   ((componentDidMount_scroll selMountW "k" hostMountW).2
      (ScrollEffect.windowScrollTo 0 25) (by decide)).2.1,
   ((componentDidMount_scroll selMountW "k" hostMountW).2
      (ScrollEffect.windowScrollTo 0 25) (by decide)).2.2 0 25 rfl⟩
